import Mathlib

/-!
Shallow embedding of the core of the `rag-bedrock-llamaindex` repository
(Python sources under `src/core` and `src/frontend`), together with
theorems checking the natural-language specification against it.

External effects (AWS Bedrock calls, file system reads, llama-index engine
queries) are modelled as explicit outcome parameters of type `Except`:
an `Except.error` value stands for the corresponding Python exception,
an `Except.ok` value for a successful call.  Python dictionaries returned
at the query boundary are modelled as structures whose optional keys
(`query`, `num_sources`), absent on some code paths, have `Option` type
with `none` meaning "key absent".  Floating-point scores are modelled as
rationals.
-/

namespace RAGBedrock

/-! ### `src/core/embeddings.py` — `CustomTitanEmbedding` -/

/-- Substring search on character lists: `containsSeq l pat` is `true`
iff `pat` occurs contiguously inside `l` (Python `pat in s`). -/
def containsSeq : List Char → List Char → Bool
  | [], pat => pat.isEmpty
  | c :: rest, pat => pat.isPrefixOf (c :: rest) || containsSeq rest pat

/-- Python `pat in s` on strings. -/
def strContainsSubstr (s pat : String) : Bool :=
  containsSeq s.toList pat.toList

/-- Embeds `CustomTitanEmbedding._get_embedding` (embeddings.py lines 115–147).
The whole `try` block — request-body construction, the Bedrock
`invoke_model` call and the JSON parsing of its response down to the
`embedding` field — is fallible and is modelled by the `backend`
parameter; the `except` branch returns the zero-vector fallback whose
dimension is `1536 if "v1" in self.model_name else 1024`. -/
def get_embedding (model_name : String) (backend : Except String (List ℚ)) : List ℚ :=
  match backend with
  | Except.ok embedding => embedding
  | Except.error _ =>
      let fallback_dim : Nat := if strContainsSubstr model_name "v1" then 1536 else 1024
      List.replicate fallback_dim 0

/-- Embeds `CustomTitanEmbedding._aget_embedding` (embeddings.py lines 149–181):
the async counterpart; same request shape, same fallback branch. -/
def aget_embedding (model_name : String) (backend : Except String (List ℚ)) : List ℚ :=
  match backend with
  | Except.ok embedding => embedding
  | Except.error _ =>
      let fallback_dim : Nat := if strContainsSubstr model_name "v1" then 1536 else 1024
      List.replicate fallback_dim 0

/-! ### `src/core/claude_model.py` — `ClaudeModel.generate_response` -/

/-- One element of the JSON `content` array of a Bedrock Claude response;
`text = none` models a dict missing the `'text'` key. -/
structure ContentItem where
  text : Option String
deriving Repr, DecidableEq

/-- The JSON `usage` object; `none` fields model missing keys. -/
structure UsageInfo where
  input_tokens : Option Nat
  output_tokens : Option Nat
deriving Repr, DecidableEq

/-- A parsed Bedrock Claude response body; `none` fields model missing keys. -/
structure ResponseBody where
  content : Option (List ContentItem)
  usage : Option UsageInfo
deriving Repr, DecidableEq

/-- Outcome of `self.brt.invoke_model(...)` followed by
`json.loads(response.get('body').read())` (claude_model.py lines 60–66). -/
inductive InvokeOutcome where
  /-- `BotoCoreError` / `ClientError` from the transport layer. -/
  | transportError (msg : String)
  /-- `json.JSONDecodeError` while parsing the body. -/
  | jsonError (msg : String)
  /-- A successfully parsed JSON body. -/
  | ok (body : ResponseBody)
deriving Repr, DecidableEq

/-- The exception classes `ClaudeModel.generate_response` can raise. -/
inductive GenError where
  /-- `RuntimeError("Failed to invoke model: ...")` — transport failure. -/
  | runtimeError (msg : String)
  /-- `ValueError("Failed to parse response body: ...")` — JSON decode failure. -/
  | valueError (msg : String)
  /-- `KeyError("Missing expected key in response body: ...")` — a field
  expected in the parsed body is absent. -/
  | keyError (key : String)
  /-- `IndexError` from `content[0]` on an empty list (not caught by the
  `except KeyError` clause, so it propagates as-is). -/
  | indexError
deriving Repr, DecidableEq

/-- The dictionary returned by a successful `generate_response`. -/
structure GenResult where
  text : String
  prompt_tokens : Nat
  response_tokens : Nat
  total_tokens : Nat
deriving Repr, DecidableEq

/-- The field-extraction block of `generate_response`
(claude_model.py lines 72–79): `response_body['content'][0]['text']`,
then `response_body['usage']['input_tokens' / 'output_tokens']`; any
missing key raises `KeyError`, re-raised with a message. -/
def extractResponseFields (body : ResponseBody) : Except GenError GenResult :=
  match body.content with
  | none => Except.error (GenError.keyError "content")
  | some items =>
    match items with
    | [] => Except.error GenError.indexError
    | item :: _ =>
      match item.text with
      | none => Except.error (GenError.keyError "text")
      | some text =>
        match body.usage with
        | none => Except.error (GenError.keyError "usage")
        | some usage =>
          match usage.input_tokens with
          | none => Except.error (GenError.keyError "input_tokens")
          | some prompt_tokens =>
            match usage.output_tokens with
            | none => Except.error (GenError.keyError "output_tokens")
            | some response_tokens =>
              Except.ok { text := text
                          prompt_tokens := prompt_tokens
                          response_tokens := response_tokens
                          total_tokens := prompt_tokens + response_tokens }

/-- Embeds `ClaudeModel.generate_response` (claude_model.py lines 46–86), from the
`invoke_model` outcome on: transport errors become `RuntimeError`, JSON
decode errors become `ValueError`, and a parsed body goes through the
field-extraction block. -/
def generate_response (outcome : InvokeOutcome) : Except GenError GenResult :=
  match outcome with
  | InvokeOutcome.transportError m =>
      Except.error (GenError.runtimeError ("Failed to invoke model: " ++ m))
  | InvokeOutcome.jsonError m =>
      Except.error (GenError.valueError ("Failed to parse response body: " ++ m))
  | InvokeOutcome.ok body => extractResponseFields body

/-- The request body built at the top of `generate_response`
(claude_model.py lines 48–57): an assistant-role message carrying the
`ai_role` text, a user message with one text block carrying the prompt,
and the literals `max_tokens = 5000`, `top_p = 0.9`,
`anthropic_version = "bedrock-2023-05-31"`; `temperature` is the
function argument (default `0.1`). -/
structure TextBlock where
  type : String
  text : String
deriving Repr, DecidableEq

/-- A message's `content` value: either a bare string or a list of typed
blocks, as in the two messages of the request. -/
inductive MessageContent where
  | plain (s : String)
  | blocks (bs : List TextBlock)
deriving Repr, DecidableEq

/-- One entry of the `messages` array of the request body. -/
structure Message where
  role : String
  content : MessageContent
deriving Repr, DecidableEq

/-- The structured request `generate_response` serializes with
`json.dumps` (claude_model.py lines 48–57). -/
structure RequestBody where
  messages : List Message
  max_tokens : Nat
  temperature : ℚ
  top_p : ℚ
  anthropic_version : String
deriving Repr, DecidableEq

/-- Request construction in `generate_response` (claude_model.py
lines 48–57).  `temperature` and `ai_role` are the per-call parameters of
`generate_response` with their Python defaults; the other generation
parameters are the literals written in the function body. -/
def buildRequestBody (prompt_text : String) (temperature : ℚ := 1/10)
    (ai_role : String := "You are a helpful assistant.") : RequestBody :=
  { messages :=
      [ { role := "assistant", content := MessageContent.plain ai_role },
        { role := "user",
          content := MessageContent.blocks [{ type := "text", text := prompt_text }] } ]
    max_tokens := 5000
    temperature := temperature
    top_p := 9/10
    anthropic_version := "bedrock-2023-05-31" }

/-! ### `src/core/config.py` — `Config.get_model_config` -/

/-- The dictionary `Config.get_model_config` returns: either an LLM
configuration (`model_id`, `max_tokens`, `temperature`, `top_p`) or an
embedding configuration (`model_id`, `dimensions`). -/
inductive ModelConfig where
  | llm (model_id : String) (max_tokens : Nat) (temperature : ℚ) (top_p : ℚ)
  | embeddingCfg (model_id : String) (dimensions : Nat)
deriving Repr, DecidableEq

/-- Embeds `Config.CLAUDE_MODEL_ID` (config.py line 18). -/
def CLAUDE_MODEL_ID : String := "anthropic.claude-3-sonnet-20240229-v1:0"

/-- Embeds `Config.CLAUDE_35_MODEL_ID` (config.py line 19). -/
def CLAUDE_35_MODEL_ID : String := "anthropic.claude-3-5-sonnet-20240620-v1:0"

/-- Embeds `Config.TITAN_EMBEDDING_MODEL_V1` (config.py line 20). -/
def TITAN_EMBEDDING_MODEL_V1 : String := "amazon.titan-embed-text-v1"

/-- Embeds `Config.get_model_config` (config.py lines 49–71); the `else` branch
raises `ValueError`, modelled as `Except.error`. -/
def get_model_config (model_type : String := "claude") : Except String ModelConfig :=
  if model_type = "claude" then
    Except.ok (ModelConfig.llm CLAUDE_MODEL_ID 5000 (1/10) (9/10))
  else if model_type = "claude_35" then
    Except.ok (ModelConfig.llm CLAUDE_35_MODEL_ID 5000 (1/10) (9/10))
  else if model_type = "titan_embedding" then
    Except.ok (ModelConfig.embeddingCfg TITAN_EMBEDDING_MODEL_V1 1536)
  else
    Except.error ("Unknown model type: " ++ model_type)

/-- The `max_tokens` value of the configuration object for the given model
type, when it is an LLM configuration. -/
def configMaxTokens (model_type : String) : Option Nat :=
  match get_model_config model_type with
  | Except.ok (ModelConfig.llm _ mt _ _) => some mt
  | _ => none

/-- The `temperature` value of the configuration object for the given
model type, when it is an LLM configuration. -/
def configTemperature (model_type : String) : Option ℚ :=
  match get_model_config model_type with
  | Except.ok (ModelConfig.llm _ _ t _) => some t
  | _ => none

/-- The `top_p` value of the configuration object for the given model
type, when it is an LLM configuration. -/
def configTopP (model_type : String) : Option ℚ :=
  match get_model_config model_type with
  | Except.ok (ModelConfig.llm _ _ _ p) => some p
  | _ => none

/-! ### Python `round(x, 4)` on scores -/

/-- Round-half-to-even to the nearest integer, as Python's `round` does. -/
def roundHalfEven (q : ℚ) : ℤ :=
  let f : ℤ := ⌊q⌋
  if q - f < 1/2 then f
  else if q - f > 1/2 then f + 1
  else if f % 2 = 0 then f else f + 1

/-- Python `round(x, 4)`: round to the nearest multiple of `10⁻⁴`,
ties to even. -/
def round4 (q : ℚ) : ℚ := (roundHalfEven (q * 10000) : ℚ) / 10000

/-! ### `src/core/utils.py` — `truncate_text` -/

/-- Embeds `truncate_text` (utils.py lines 229–233). -/
def truncate_text (text : String) (max_length : Nat := 150) : String :=
  if text.length ≤ max_length then text
  else text.take max_length ++ "..."

/-! ### `src/core/rag_system.py` — `RAGSystem` -/

/-- A loaded document as produced by `SimpleDirectoryReader.load_data()`. -/
structure Document where
  text : String
deriving Repr, DecidableEq

/-- The vector index built by `VectorStoreIndex.from_documents` — for the
pipeline claims only its provenance matters. -/
structure VectorIndex where
  docs : List Document
deriving Repr, DecidableEq

/-- The query engine built by `index.as_query_engine(similarity_top_k=k)`. -/
structure QueryEngine where
  idx : VectorIndex
  similarity_top_k : Nat
deriving Repr, DecidableEq

/-- The mutable fields of a `RAGSystem` instance touched by the pipeline
(`self.documents`, `self.index`, `self.query_engine`). -/
structure RagState where
  documents : List Document
  index : Option VectorIndex
  query_engine : Option QueryEngine
deriving Repr, DecidableEq

/-- The state `RAGSystem.__init__` establishes (rag_system.py lines
33–35): empty document list, no index, no query engine. -/
def initialRagState : RagState :=
  { documents := [], index := none, query_engine := none }

/-- Outcomes of the three external operations the pipeline performs:
reading the data directory, building the vector index, and building the
query engine.  An `Except.error` stands for the exception the
corresponding `except` branch catches. -/
structure PipelineOutcomes where
  /-- `SimpleDirectoryReader(...).load_data()` (rag_system.py line 91):
  either raises, or returns the list of loaded PDF documents (possibly
  empty). -/
  readResult : Except String (List Document)
  /-- `VectorStoreIndex.from_documents(...)` (rag_system.py line 122). -/
  indexResult : Except String Unit
  /-- `index.as_query_engine(...)` (rag_system.py line 147). -/
  engineResult : Except String Unit
deriving Repr

/-- Embeds `RAGSystem.load_documents` (rag_system.py lines 71–108): on a read
exception, `self.documents` is reset to `[]` and `False` is returned;
on success `self.documents` is set to the loaded list, and the return
value is `False` exactly when that list is empty. -/
def load_documents (s : RagState) (o : PipelineOutcomes) : RagState × Bool :=
  match o.readResult with
  | Except.error _ => ({ s with documents := [] }, false)
  | Except.ok docs =>
      if docs.isEmpty then ({ s with documents := docs }, false)
      else ({ s with documents := docs }, true)

/-- Embeds `RAGSystem.create_index` (rag_system.py lines 110–130): refuses when
no documents are loaded; on a build exception sets `self.index = None`
and returns `False`. -/
def create_index (s : RagState) (o : PipelineOutcomes) : RagState × Bool :=
  if s.documents.isEmpty then (s, false)
  else
    match o.indexResult with
    | Except.ok _ => ({ s with index := some { docs := s.documents } }, true)
    | Except.error _ => ({ s with index := none }, false)

/-- Embeds `RAGSystem.create_query_engine` (rag_system.py lines 132–156):
refuses when no index is available; on an exception sets
`self.query_engine = None` and returns `False`. -/
def create_query_engine (s : RagState) (o : PipelineOutcomes)
    (similarity_top_k : Nat := 3) : RagState × Bool :=
  match s.index with
  | none => (s, false)
  | some idx =>
      match o.engineResult with
      | Except.ok _ =>
          ({ s with query_engine := some { idx := idx, similarity_top_k := similarity_top_k } },
           true)
      | Except.error _ => ({ s with query_engine := none }, false)

/-- The three pipeline steps, used to record which methods a run of
`initialize_system` actually invoked. -/
inductive InitStep where
  | loadStep
  | indexStep
  | engineStep
deriving Repr, DecidableEq

/-- Embeds `RAGSystem.initialize_system` (rag_system.py lines 206–228): runs
`load_documents`, `create_index`, `create_query_engine` in order,
returning `False` at the first failure; alongside the final state and
return value it records the trace of steps invoked. -/
def init_system (s : RagState) (o : PipelineOutcomes) :
    RagState × Bool × List InitStep :=
  let r1 := load_documents s o
  if r1.2 = false then (r1.1, false, [InitStep.loadStep])
  else
    let r2 := create_index r1.1 o
    if r2.2 = false then (r2.1, false, [InitStep.loadStep, InitStep.indexStep])
    else
      let r3 := create_query_engine r2.1 o 3
      if r3.2 = false then
        (r3.1, false, [InitStep.loadStep, InitStep.indexStep, InitStep.engineStep])
      else (r3.1, true, [InitStep.loadStep, InitStep.indexStep, InitStep.engineStep])

/-! #### `RAGSystem.query_documents` -/

/-- A retrieved source node of a llama-index query response
(`response.source_nodes` entries): id, similarity score, chunk text. -/
structure SourceNode where
  node_id : String
  score : ℚ
  text : String
deriving Repr, DecidableEq

/-- A llama-index query response: its string form `str(response)` and its
source nodes. -/
structure EngineResponse where
  responseText : String
  source_nodes : List SourceNode
deriving Repr, DecidableEq

/-- One entry of the `sources` list built by `query_documents`
(rag_system.py lines 182–188). -/
structure SourceEntry where
  node_id : String
  score : ℚ
  text_preview : String
  full_text : String
deriving Repr, DecidableEq

/-- The result dictionary of the query boundary.  The keys `error`,
`response`, `sources` are present on every path; `query` and
`num_sources` are absent on some paths, which is modelled by `none`. -/
structure QueryResultD where
  error : Option String
  response : Option String
  sources : List SourceEntry
  query : Option String
  num_sources : Option Nat
deriving Repr, DecidableEq

/-- The per-node dictionary built in the loop of `query_documents`
(rag_system.py lines 183–188): score rounded with `round(node.score, 4)`,
preview `node.text[:150] + "..." if len(node.text) > 150 else node.text`,
full text carried unchanged. -/
def mkSourceEntry (n : SourceNode) : SourceEntry :=
  { node_id := n.node_id
    score := round4 n.score
    text_preview := if n.text.length > 150 then n.text.take 150 ++ "..." else n.text
    full_text := n.text }

/-- Embeds `RAGSystem.query_documents` (rag_system.py lines 158–204).
`query_engine` is the instance field; `qres` is the outcome of
`self.query_engine.query(user_input)`, an exception being caught by the
`except` branch.  Note that the first early-return dictionary (engine not
available) carries no `query` and no `num_sources` key, and the
exception dictionary carries no `num_sources` key.  The `top_k`
parameter is accepted but, as in the source, never used in the body. -/
def query_documents (query_engine : Option QueryEngine) (user_input : String)
    (qres : Except String EngineResponse) (top_k : Nat := 3) : QueryResultD :=
  match query_engine with
  | none =>
      { error := some "Query engine is not available. Please ensure documents are loaded and indexed."
        response := none
        sources := []
        query := none
        num_sources := none }
  | some _ =>
      match qres with
      | Except.ok resp =>
          let sources := resp.source_nodes.map mkSourceEntry
          { error := none
            response := some resp.responseText
            sources := sources
            query := some user_input
            num_sources := some sources.length }
      | Except.error e =>
          { error := some ("Error processing query: " ++ e)
            response := none
            sources := []
            query := some user_input
            num_sources := none }

/-! ### `src/frontend/streamlit_app.py` — `StreamlitChatbot` -/

/-- The Streamlit session-state fields `get_response` and
`initialize_rag_system` read or write.  `rag_system` holds the
`RAGSystem` instance's pipeline state; `claude_model = some ()` means a
`ClaudeModel` instance has been constructed and stored. -/
structure SessionState where
  rag_system : Option RagState
  claude_model : Option Unit
  rag_initialized : Bool
  use_direct_claude : Bool

/-- Session state at the start of a fresh session
(streamlit_app.py lines 27–34): no RAG system, no Claude model,
not initialized. -/
def freshSessionState (use_direct_claude : Bool) : SessionState :=
  { rag_system := none
    claude_model := none
    rag_initialized := false
    use_direct_claude := use_direct_claude }

/-- Embeds `StreamlitChatbot.initialize_rag_system` (streamlit_app.py lines
145–163).  `ctorOutcome` is the outcome of the `RAGSystem(...)`
constructor (its `_setup_models` may raise — caught by the outer
`except`); `o` drives `initialize_system`; `claudeCtor` is the outcome of
`ClaudeModel()` (its failure only produces a warning).  The Claude model
is stored **only when `success` is true**. -/
def init_rag_system (st : SessionState) (ctorOutcome : Except String Unit)
    (o : PipelineOutcomes) (claudeCtor : Except String Unit) :
    SessionState × Bool :=
  match ctorOutcome with
  | Except.error _ => (st, false)
  | Except.ok _ =>
      let r := init_system initialRagState o
      let st1 := { st with rag_system := some r.1 }
      if r.2.1 then
        match claudeCtor with
        | Except.ok _ => ({ st1 with claude_model := some () }, true)
        | Except.error _ => (st1, true)
      else (st1, false)

/-- The sidebar button handler around `initialize_rag_system`
(streamlit_app.py lines 113–123): sets `st.session_state.rag_initialized`
to the returned success flag. -/
def sidebarInitButton (st : SessionState) (ctorOutcome : Except String Unit)
    (o : PipelineOutcomes) (claudeCtor : Except String Unit) : SessionState :=
  let r := init_rag_system st ctorOutcome o claudeCtor
  if r.2 then { r.1 with rag_initialized := true }
  else { r.1 with rag_initialized := false }

/-- Python `str(e)` for the exceptions `generate_response` raises, as
interpolated into the error dictionaries of `get_response`. -/
def genErrorStr : GenError → String
  | GenError.runtimeError m => m
  | GenError.valueError m => m
  | GenError.keyError k => "Missing expected key in response body: " ++ k
  | GenError.indexError => "list index out of range"

/-- Embeds `StreamlitChatbot.get_response` (streamlit_app.py lines 218–264).
`claudeOutcome` is the backend outcome consumed by
`claude_model.generate_response(query)` when the direct-Claude branch
runs; `ragOutcome` is the engine outcome consumed by
`rag_system.query_documents(query, top_k)`; `ragRaises = some e` models
an exception escaping that call (the defensive `except` branch). -/
def get_response (st : SessionState) (query : String) (top_k : Nat)
    (claudeOutcome : InvokeOutcome) (ragOutcome : Except String EngineResponse)
    (ragRaises : Option String) : QueryResultD :=
  if st.use_direct_claude then
    match st.claude_model with
    | some _ =>
        match generate_response claudeOutcome with
        | Except.ok result =>
            { error := none
              response := some result.text
              sources := []
              query := some query
              num_sources := some 0 }
        | Except.error e =>
            { error := some ("Claude model error: " ++ genErrorStr e)
              response := none
              sources := []
              query := some query
              num_sources := none }
    | none =>
        { error := some "Claude model not initialized"
          response := none
          sources := []
          query := some query
          num_sources := none }
  else
    match st.rag_system, st.rag_initialized with
    | some rs, true =>
        (match ragRaises with
         | some e =>
             { error := some ("RAG query error: " ++ e)
               response := none
               sources := []
               query := some query
               num_sources := none }
         | none => query_documents rs.query_engine query ragOutcome top_k)
    | _, _ =>
        { error := some "RAG system not initialized. Please initialize it first using the sidebar."
          response := none
          sources := []
          query := some query
          num_sources := none }

/-! ## Theorems for the specification claims -/

/-- C1: for every input text, if the embedding backend call or response
parsing raises, `_get_embedding` and `_aget_embedding` do not propagate
the exception but return a vector whose length is the expected dimension
of the configured model (1536 when the model name contains `"v1"`, 1024
otherwise) and whose components are all zero. -/
theorem C1_fallback_zero_vector (model_name e : String) :
    (get_embedding model_name (Except.error e)).length
        = (if strContainsSubstr model_name "v1" then 1536 else 1024) ∧
    (∀ x ∈ get_embedding model_name (Except.error e), x = (0 : ℚ)) ∧
    (aget_embedding model_name (Except.error e)).length
        = (if strContainsSubstr model_name "v1" then 1536 else 1024) ∧
    (∀ x ∈ aget_embedding model_name (Except.error e), x = (0 : ℚ)) := by
  refine ⟨?_, ?_, ?_, ?_⟩
  · simp [get_embedding]
  · intro x hx
    simp only [get_embedding] at hx
    exact List.eq_of_mem_replicate hx
  · simp [aget_embedding]
  · intro x hx
    simp only [aget_embedding] at hx
    exact List.eq_of_mem_replicate hx

/-- Witness for C1 at the v1 and v2 model identifiers of the repository,
with a concrete backend failure. -/
theorem C1_fallback_zero_vector_witness :
    (get_embedding "amazon.titan-embed-text-v1" (Except.error "throttled")).length = 1536 ∧
    (aget_embedding "amazon.titan-embed-text-v2:0" (Except.error "throttled")).length = 1024 ∧
    (get_embedding "amazon.titan-embed-text-v1" (Except.error "throttled")).head! = (0 : ℚ) := by
  have h1 := C1_fallback_zero_vector "amazon.titan-embed-text-v1" "throttled"
  have h2 := C1_fallback_zero_vector "amazon.titan-embed-text-v2:0" "throttled"
  have hc1 : strContainsSubstr "amazon.titan-embed-text-v1" "v1" = true := by decide
  have hc2 : strContainsSubstr "amazon.titan-embed-text-v2:0" "v1" = false := by decide
  refine ⟨by simpa [hc1] using h1.1, by simpa [hc2] using h2.2.2.1, ?_⟩
  have hlen : (get_embedding "amazon.titan-embed-text-v1" (Except.error "throttled")).length
      = 1536 := by simpa [hc1] using h1.1
  have hne : get_embedding "amazon.titan-embed-text-v1" (Except.error "throttled") ≠ [] := by
    intro hnil
    rw [hnil] at hlen
    simp at hlen
  exact h1.2.1 _ (List.head!_mem_self hne)

/-- C3: for every query string, if the query engine has not been built,
`query_documents` returns (raising nothing — it is a total function) a
result whose `error` field is populated, whose `response` field is null
and whose `sources` list is empty. -/
theorem C3_unbuilt_engine_error_result (q : String)
    (qres : Except String EngineResponse) (k : Nat) :
    (query_documents none q qres k).error
        = some "Query engine is not available. Please ensure documents are loaded and indexed." ∧
    (query_documents none q qres k).response = none ∧
    (query_documents none q qres k).sources = [] :=
  ⟨rfl, rfl, rfl⟩

/-- C5 counterexample: `generate_response` accepts the sampling
temperature as a per-call argument and puts it into the request verbatim,
so a call with temperature `1/2` produces a request whose temperature
differs from the configuration object's value `1/10`; the generation
parameters are not sourced from `Config.get_model_config`. -/
theorem C5_counterexample :
    some (buildRequestBody "What is AWS Bedrock?" (1/2) "You are a helpful assistant.").temperature
      ≠ configTemperature "claude" ∧
    configTemperature "claude" = some (1/10 : ℚ) := by
  have hc : configTemperature "claude" = some (1/10 : ℚ) := by
    simp [configTemperature, get_model_config]
  refine ⟨?_, hc⟩
  intro h
  rw [hc] at h
  simp [buildRequestBody] at h

/-- C5 (amended): every request built by `generate_response` contains an
assistant-role instruction and the user prompt; its `max_tokens` and
`top_p` are the fixed literals 5000 and 0.9, which coincide with the
values in `Config.get_model_config("claude")`, while `temperature` is the
per-call argument (default 0.1) — the configuration object is not
consulted. -/
theorem C5_request_shape (p : String) (t : ℚ) (r : String) :
    (buildRequestBody p t r).messages.get? 0
        = some { role := "assistant", content := MessageContent.plain r } ∧
    (buildRequestBody p t r).messages.get? 1
        = some { role := "user",
                 content := MessageContent.blocks [{ type := "text", text := p }] } ∧
    (buildRequestBody p t r).max_tokens = 5000 ∧
    (buildRequestBody p t r).top_p = 9/10 ∧
    (buildRequestBody p t r).temperature = t ∧
    configMaxTokens "claude" = some (buildRequestBody p t r).max_tokens ∧
    configTopP "claude" = some (buildRequestBody p t r).top_p := by
  refine ⟨rfl, rfl, rfl, rfl, rfl, ?_, ?_⟩ <;>
    simp [configMaxTokens, configTopP, get_model_config, buildRequestBody]

/-- C9: whenever `generate_response` returns successfully, the returned
`total_tokens` equals `prompt_tokens + response_tokens`, the backend's
reported input and output token counts. -/
theorem C9_total_tokens (outcome : InvokeOutcome) (r : GenResult)
    (h : generate_response outcome = Except.ok r) :
    r.total_tokens = r.prompt_tokens + r.response_tokens := by
  cases outcome with
  | transportError m => simp [generate_response] at h
  | jsonError m => simp [generate_response] at h
  | ok body =>
    obtain ⟨content, usage⟩ := body
    cases content with
    | none => simp [generate_response, extractResponseFields] at h
    | some items =>
      cases items with
      | nil => simp [generate_response, extractResponseFields] at h
      | cons item rest =>
        cases htext : item.text with
        | none => simp [generate_response, extractResponseFields, htext] at h
        | some text =>
          cases usage with
          | none => simp [generate_response, extractResponseFields, htext] at h
          | some u =>
            obtain ⟨it, ot⟩ := u
            cases it with
            | none => simp [generate_response, extractResponseFields, htext] at h
            | some pt =>
              cases ot with
              | none => simp [generate_response, extractResponseFields, htext] at h
              | some rt =>
                simp [generate_response, extractResponseFields, htext] at h
                rw [← h]

/-- Witness for C9 at a concrete, fully populated backend response. -/
theorem C9_total_tokens_witness :
    (⟨"hello", 11, 7, 18⟩ : GenResult).total_tokens
      = (⟨"hello", 11, 7, 18⟩ : GenResult).prompt_tokens
        + (⟨"hello", 11, 7, 18⟩ : GenResult).response_tokens :=
  C9_total_tokens
    (InvokeOutcome.ok { content := some [{ text := some "hello" }]
                        usage := some { input_tokens := some 11, output_tokens := some 7 } })
    ⟨"hello", 11, 7, 18⟩ rfl

/-- C10 counterexample: on the unbuilt-engine path, `query_documents`
returns a dictionary that has no `query` key at all, so the original
query string is not echoed back even though `error` is populated. -/
theorem C10_counterexample :
    (query_documents none "hello" (Except.ok { responseText := "", source_nodes := [] }) 3).error
        ≠ none ∧
    (query_documents none "hello" (Except.ok { responseText := "", source_nodes := [] }) 3).query
        ≠ some "hello" := by
  constructor
  · intro h
    simp [query_documents] at h
  · intro h
    simp [query_documents] at h

/-- C2: the pipeline sequence of `initialize_system` is strictly forward
and halts on first failure — if `load_documents` fails, neither
`create_index` nor `create_query_engine` is invoked; if `create_index`
fails, `create_query_engine` is not invoked; the run returns `true` iff
all three steps succeed; and a failed run from the freshly constructed
state leaves `query_engine` unset. -/
theorem C2_pipeline_short_circuit (o : PipelineOutcomes) :
    ((load_documents initialRagState o).2 = false →
      (init_system initialRagState o).2.2 = [InitStep.loadStep]) ∧
    ((load_documents initialRagState o).2 = true →
      (create_index (load_documents initialRagState o).1 o).2 = false →
      (init_system initialRagState o).2.2 = [InitStep.loadStep, InitStep.indexStep]) ∧
    ((init_system initialRagState o).2.1 = true ↔
      ((∃ docs, o.readResult = Except.ok docs ∧ docs ≠ []) ∧
       o.indexResult = Except.ok () ∧ o.engineResult = Except.ok ())) ∧
    ((init_system initialRagState o).2.1 = false →
      (init_system initialRagState o).1.query_engine = none) := by
  obtain ⟨rr, ir, er⟩ := o
  cases rr with
  | error e =>
    simp [init_system, load_documents, create_index, create_query_engine, initialRagState]
  | ok docs =>
    by_cases hd : docs.isEmpty
    · simp [init_system, load_documents, create_index, create_query_engine, initialRagState,
        hd, List.isEmpty_iff.mp hd]
    · have hne : docs ≠ [] := by
        intro hnil
        rw [hnil] at hd
        simp at hd
      cases ir with
      | error e =>
        simp [init_system, load_documents, create_index, create_query_engine,
          initialRagState, hd, hne]
      | ok u =>
        cases er with
        | error e =>
          simp [init_system, load_documents, create_index, create_query_engine,
            initialRagState, hd, hne]
        | ok v =>
          simp [init_system, load_documents, create_index, create_query_engine,
            initialRagState, hd, hne]

/-- Witness for C2 at a concrete run whose document read fails: the trace
stops at the load step and the query engine stays unset. -/
theorem C2_pipeline_short_circuit_witness :
    (init_system initialRagState
        { readResult := Except.error "io failure"
          indexResult := Except.ok (), engineResult := Except.ok () }).2.2
      = [InitStep.loadStep] ∧
    (init_system initialRagState
        { readResult := Except.error "io failure"
          indexResult := Except.ok (), engineResult := Except.ok () }).1.query_engine
      = none := by
  have h := C2_pipeline_short_circuit
    { readResult := Except.error "io failure"
      indexResult := Except.ok (), engineResult := Except.ok () }
  exact ⟨h.1 rfl, h.2.2.2 rfl⟩

/-- C4: `generate_response` distinguishes a malformed backend response
from a transport error — when the parsed body carries content text but is
missing the `usage` field, it raises the re-raised `KeyError`
(malformed-response condition) and returns no partial token count, while
a transport failure of the invoke call raises `RuntimeError`, a distinct
error condition. -/
theorem C4_malformed_vs_transport (body : ResponseBody) (item : ContentItem)
    (rest : List ContentItem) (t m : String)
    (hc : body.content = some (item :: rest))
    (ht : item.text = some t)
    (hu : body.usage = none) :
    generate_response (InvokeOutcome.ok body) = Except.error (GenError.keyError "usage") ∧
    (∀ r : GenResult, generate_response (InvokeOutcome.ok body) ≠ Except.ok r) ∧
    generate_response (InvokeOutcome.transportError m)
      = Except.error (GenError.runtimeError ("Failed to invoke model: " ++ m)) ∧
    GenError.keyError "usage" ≠ GenError.runtimeError ("Failed to invoke model: " ++ m) := by
  obtain ⟨content, usage⟩ := body
  simp only [ResponseBody.content] at hc
  simp only [ResponseBody.usage] at hu
  subst hc
  subst hu
  refine ⟨?_, ?_, rfl, by simp⟩
  · simp [generate_response, extractResponseFields, ht]
  · intro r hr
    simp [generate_response, extractResponseFields, ht] at hr

/-- Witness for C4 at a concrete parsed body missing only `usage`. -/
theorem C4_malformed_vs_transport_witness :
    generate_response
        (InvokeOutcome.ok { content := some [{ text := some "partial answer" }], usage := none })
      = Except.error (GenError.keyError "usage") ∧
    generate_response (InvokeOutcome.transportError "connection reset")
      = Except.error (GenError.runtimeError ("Failed to invoke model: " ++ "connection reset")) := by
  have h := C4_malformed_vs_transport
    { content := some [{ text := some "partial answer" }], usage := none }
    { text := some "partial answer" } [] "partial answer" "connection reset"
    rfl rfl rfl
  exact ⟨h.1, h.2.2.1⟩

/-- C7: every successful result of `query_documents` carries
`num_sources` equal to the length of its `sources` list, and each
source's score is the node's score rounded to 4 decimal places
(Python `round(node.score, 4)`, modelled by `round4`). -/
theorem C7_num_sources_and_rounding (e : QueryEngine) (q : String)
    (resp : EngineResponse) (k : Nat) :
    (query_documents (some e) q (Except.ok resp) k).num_sources
        = some (query_documents (some e) q (Except.ok resp) k).sources.length ∧
    (query_documents (some e) q (Except.ok resp) k).sources.length
        = resp.source_nodes.length ∧
    (∀ i : Nat,
      ((query_documents (some e) q (Except.ok resp) k).sources.get? i).map SourceEntry.score
        = (resp.source_nodes.get? i).map (fun n => round4 n.score)) := by
  refine ⟨rfl, by simp [query_documents], ?_⟩
  intro i
  simp only [query_documents, List.get?_map]
  cases resp.source_nodes.get? i with
  | none => rfl
  | some n => simp [mkSourceEntry]

/-- Witness for C7 at a concrete engine and a one-node response. -/
theorem C7_num_sources_and_rounding_witness :
    (query_documents (some { idx := { docs := [] }, similarity_top_k := 3 }) "q"
        (Except.ok { responseText := "answer"
                     source_nodes := [{ node_id := "n1", score := 12345/100000, text := "short" }] })
        3).num_sources = some 1 ∧
    ((query_documents (some { idx := { docs := [] }, similarity_top_k := 3 }) "q"
        (Except.ok { responseText := "answer"
                     source_nodes := [{ node_id := "n1", score := 12345/100000, text := "short" }] })
        3).sources.get? 0).map SourceEntry.score = some (round4 (12345/100000)) := by
  have h := C7_num_sources_and_rounding
    { idx := { docs := [] }, similarity_top_k := 3 } "q"
    { responseText := "answer"
      source_nodes := [{ node_id := "n1", score := 12345/100000, text := "short" }] } 3
  constructor
  · rw [h.1, h.2.1]
    rfl
  · rw [h.2.2 0]
    rfl

/-- C8: in every successful `query_documents` result, a source entry's
`text_preview` equals the node's full text when that text has at most 150
characters, and otherwise equals exactly the first 150 characters
followed by an ellipsis; `full_text` always carries the untruncated text.
The inlined expression coincides with `truncate_text` from utils.py. -/
theorem C8_preview_truncation (e : QueryEngine) (q : String) (resp : EngineResponse)
    (k i : Nat) (n : SourceNode) (s : SourceEntry)
    (hn : resp.source_nodes.get? i = some n)
    (hs : (query_documents (some e) q (Except.ok resp) k).sources.get? i = some s) :
    s.full_text = n.text ∧
    (n.text.length ≤ 150 → s.text_preview = n.text) ∧
    (150 < n.text.length → s.text_preview = n.text.take 150 ++ "...") ∧
    s.text_preview = truncate_text n.text 150 := by
  have hsm : (query_documents (some e) q (Except.ok resp) k).sources.get? i
      = (resp.source_nodes.get? i).map mkSourceEntry := by
    simp [query_documents, List.get?_map]
  rw [hs, hn] at hsm
  simp only [Option.map_some'] at hsm
  obtain rfl : s = mkSourceEntry n := Option.some.inj hsm
  refine ⟨rfl, ?_, ?_, ?_⟩
  · intro hle
    simp [mkSourceEntry, Nat.not_lt.mpr hle]
  · intro hlt
    simp [mkSourceEntry, hlt]
  · by_cases hle : n.text.length ≤ 150
    · simp [mkSourceEntry, truncate_text, hle, Nat.not_lt.mpr hle]
    · have hlt : 150 < n.text.length := Nat.not_le.mp hle
      simp [mkSourceEntry, truncate_text, hle, hlt]

set_option maxRecDepth 8000 in
/-- Witness for C8 at a 10-character text (kept whole) and a
200-character text (truncated to 150 characters plus ellipsis). -/
theorem C8_preview_truncation_witness :
    ((query_documents (some { idx := { docs := [] }, similarity_top_k := 3 }) "q"
        (Except.ok { responseText := "ans"
                     source_nodes :=
                       [{ node_id := "n1", score := 0, text := "short text" },
                        { node_id := "n2", score := 0,
                          text := String.mk (List.replicate 200 'a') }] })
        3).sources.map SourceEntry.text_preview)
      = ["short text", (String.mk (List.replicate 200 'a')).take 150 ++ "..."] := by
  have ha := C8_preview_truncation
    { idx := { docs := [] }, similarity_top_k := 3 } "q"
    { responseText := "ans"
      source_nodes :=
        [{ node_id := "n1", score := 0, text := "short text" },
         { node_id := "n2", score := 0, text := String.mk (List.replicate 200 'a') }] }
    3 0 { node_id := "n1", score := 0, text := "short text" }
    (mkSourceEntry { node_id := "n1", score := 0, text := "short text" }) rfl rfl
  have hb := C8_preview_truncation
    { idx := { docs := [] }, similarity_top_k := 3 } "q"
    { responseText := "ans"
      source_nodes :=
        [{ node_id := "n1", score := 0, text := "short text" },
         { node_id := "n2", score := 0, text := String.mk (List.replicate 200 'a') }] }
    3 1 { node_id := "n2", score := 0, text := String.mk (List.replicate 200 'a') }
    (mkSourceEntry { node_id := "n2", score := 0, text := String.mk (List.replicate 200 'a') })
    rfl rfl
  have hmap : ((query_documents (some { idx := { docs := [] }, similarity_top_k := 3 }) "q"
      (Except.ok { responseText := "ans"
                   source_nodes :=
                     [{ node_id := "n1", score := 0, text := "short text" },
                      { node_id := "n2", score := 0,
                        text := String.mk (List.replicate 200 'a') }] })
      3).sources.map SourceEntry.text_preview)
      = [(mkSourceEntry { node_id := "n1", score := 0, text := "short text" }).text_preview,
         (mkSourceEntry { node_id := "n2", score := 0, text := String.mk (List.replicate 200 'a') }).text_preview] := rfl
  rw [hmap, ha.2.1 (by decide), hb.2.2.1 (by decide)]

/-- Helper: field invariants of every `query_documents` result — `error`
is null exactly when `response` is not, an error result has no sources,
and the `query` key is present (echoing the input) exactly when the
engine was available. -/
lemma qd_field_invariants (engine : Option QueryEngine) (q : String)
    (qres : Except String EngineResponse) (k : Nat) :
    ((query_documents engine q qres k).error = none ↔
      (query_documents engine q qres k).response ≠ none) ∧
    ((query_documents engine q qres k).error ≠ none →
      (query_documents engine q qres k).sources = []) ∧
    (engine ≠ none → (query_documents engine q qres k).query = some q) ∧
    (engine = none → (query_documents engine q qres k).query = none) := by
  cases engine with
  | none => simp [query_documents]
  | some e =>
    cases qres with
    | ok resp => simp [query_documents]
    | error msg => simp [query_documents]

/-- C6 counterexample: a pipeline run over a directory with zero
qualifying documents never reaches Ready, and because
`initialize_rag_system` constructs the Claude model only on success, a
subsequent bypass-mode (direct Claude) query does **not** succeed — it
returns the error result "Claude model not initialized" even though the
generation backend itself would have answered. -/
theorem C6_counterexample :
    (sidebarInitButton (freshSessionState true) (Except.ok ())
        { readResult := Except.ok [], indexResult := Except.ok (), engineResult := Except.ok () }
        (Except.ok ())).rag_initialized = false ∧
    (sidebarInitButton (freshSessionState true) (Except.ok ())
        { readResult := Except.ok [], indexResult := Except.ok (), engineResult := Except.ok () }
        (Except.ok ())).claude_model = none ∧
    (get_response
        (sidebarInitButton (freshSessionState true) (Except.ok ())
          { readResult := Except.ok [], indexResult := Except.ok (), engineResult := Except.ok () }
          (Except.ok ()))
        "What is AWS Bedrock?" 3
        (InvokeOutcome.ok { content := some [{ text := some "an answer" }]
                            usage := some { input_tokens := some 3, output_tokens := some 5 } })
        (Except.ok { responseText := "r", source_nodes := [] }) none).error
      = some "Claude model not initialized" ∧
    (get_response
        (sidebarInitButton (freshSessionState true) (Except.ok ())
          { readResult := Except.ok [], indexResult := Except.ok (), engineResult := Except.ok () }
          (Except.ok ()))
        "What is AWS Bedrock?" 3
        (InvokeOutcome.ok { content := some [{ text := some "an answer" }]
                            usage := some { input_tokens := some 3, output_tokens := some 5 } })
        (Except.ok { responseText := "r", source_nodes := [] }) none).response
      = none :=
  ⟨rfl, rfl, rfl, rfl⟩

/-- C6 (amended): bypass-mode queries are dispatched directly to the
Claude model and their outcome is independent of the pipeline state, but
they succeed only when the Claude model has been stored, which
`initialize_rag_system` does only after a successful pipeline run: with
no stored model the bypass query returns an error result, and a failed
`initialize_rag_system` run leaves the stored model unchanged. -/
theorem C6_bypass_requires_claude_model (st st2 : SessionState) (q : String)
    (k : Nat) (co : InvokeOutcome) (ro : Except String EngineResponse)
    (rr : Option String) (res : GenResult) (ct : Except String Unit)
    (o : PipelineOutcomes) (cc : Except String Unit) :
    (st.use_direct_claude = true → st.claude_model = none →
      (get_response st q k co ro rr).error = some "Claude model not initialized" ∧
      (get_response st q k co ro rr).response = none) ∧
    (st.use_direct_claude = true → st.claude_model = some () →
      generate_response co = Except.ok res →
      (get_response st q k co ro rr).error = none ∧
      (get_response st q k co ro rr).response = some res.text) ∧
    (st.use_direct_claude = true → st2.use_direct_claude = true →
      st.claude_model = st2.claude_model →
      get_response st q k co ro rr = get_response st2 q k co ro rr) ∧
    ((init_rag_system st ct o cc).2 = false →
      (init_rag_system st ct o cc).1.claude_model = st.claude_model) := by
  obtain ⟨rsys, cm, ri, udc⟩ := st
  obtain ⟨rsys2, cm2, ri2, udc2⟩ := st2
  refine ⟨?_, ?_, ?_, ?_⟩
  · intro hu hc
    subst hu
    subst hc
    exact ⟨rfl, rfl⟩
  · intro hu hc hg
    subst hu
    subst hc
    constructor <;> simp [get_response, hg]
  · intro hu hu2 hcm
    subst hu
    subst hu2
    subst hcm
    rfl
  · intro h
    cases ct with
    | error e => rfl
    | ok u =>
      cases hsucc : (init_system initialRagState o).2.1 with
      | false => simp [init_rag_system, hsucc]
      | true =>
        cases cc with
        | ok v => simp [init_rag_system, hsucc] at h
        | error e => simp [init_rag_system, hsucc] at h

/-- Witness for C6 (amended): a fresh session has no stored Claude model
and its bypass query errors; a session whose Claude model is stored
answers a bypass query successfully even with the pipeline uninitialized;
a failed run over an empty directory leaves the stored model `none`. -/
theorem C6_bypass_requires_claude_model_witness :
    (get_response (freshSessionState true) "q" 3
        (InvokeOutcome.ok { content := some [{ text := some "an answer" }]
                            usage := some { input_tokens := some 3, output_tokens := some 5 } })
        (Except.ok { responseText := "r", source_nodes := [] }) none).error
      = some "Claude model not initialized" ∧
    (get_response { rag_system := none, claude_model := some (), rag_initialized := false, use_direct_claude := true } "q" 3
        (InvokeOutcome.ok { content := some [{ text := some "an answer" }]
                            usage := some { input_tokens := some 3, output_tokens := some 5 } })
        (Except.ok { responseText := "r", source_nodes := [] }) none).response
      = some "an answer" ∧
    (init_rag_system (freshSessionState true) (Except.ok ())
        { readResult := Except.ok [], indexResult := Except.ok (), engineResult := Except.ok () }
        (Except.ok ())).1.claude_model = none := by
  have h1 := C6_bypass_requires_claude_model (freshSessionState true)
    (freshSessionState true) "q" 3
    (InvokeOutcome.ok { content := some [{ text := some "an answer" }]
                        usage := some { input_tokens := some 3, output_tokens := some 5 } })
    (Except.ok { responseText := "r", source_nodes := [] }) none
    ⟨"an answer", 3, 5, 8⟩ (Except.ok ())
    { readResult := Except.ok [], indexResult := Except.ok (), engineResult := Except.ok () }
    (Except.ok ())
  have h2 := C6_bypass_requires_claude_model
    { rag_system := none, claude_model := some (), rag_initialized := false, use_direct_claude := true }
    (freshSessionState true) "q" 3
    (InvokeOutcome.ok { content := some [{ text := some "an answer" }]
                        usage := some { input_tokens := some 3, output_tokens := some 5 } })
    (Except.ok { responseText := "r", source_nodes := [] }) none
    ⟨"an answer", 3, 5, 8⟩ (Except.ok ())
    { readResult := Except.ok [], indexResult := Except.ok (), engineResult := Except.ok () }
    (Except.ok ())
  exact ⟨(h1.1 rfl rfl).1, (h2.2.1 rfl rfl rfl).2, h1.2.2.2 rfl⟩

/-- C10 (amended): every result dictionary from the query boundary has
`error` null exactly when `response` is non-null, and whenever `error` is
non-null the `sources` list is empty; the original query is echoed in the
`query` field on every path except the unbuilt-engine path of
`query_documents`, whose dictionary omits the `query` key. -/
theorem C10_result_field_invariants (engine : Option QueryEngine) (q : String)
    (qres : Except String EngineResponse) (k : Nat) (st : SessionState)
    (co : InvokeOutcome) (ro : Except String EngineResponse) (rr : Option String) :
    ((query_documents engine q qres k).error = none ↔
      (query_documents engine q qres k).response ≠ none) ∧
    ((query_documents engine q qres k).error ≠ none →
      (query_documents engine q qres k).sources = []) ∧
    (engine ≠ none → (query_documents engine q qres k).query = some q) ∧
    (engine = none → (query_documents engine q qres k).query = none) ∧
    ((get_response st q k co ro rr).error = none ↔
      (get_response st q k co ro rr).response ≠ none) ∧
    ((get_response st q k co ro rr).error ≠ none →
      (get_response st q k co ro rr).sources = []) ∧
    ((get_response st q k co ro rr).query = some q ∨
      ((get_response st q k co ro rr).query = none ∧
        (get_response st q k co ro rr).error ≠ none)) := by
  obtain ⟨hq1, hq2, hq3, hq4⟩ := qd_field_invariants engine q qres k
  refine ⟨hq1, hq2, hq3, hq4, ?_, ?_, ?_⟩ <;>
  · obtain ⟨rsys, cm, ri, udc⟩ := st
    cases udc with
    | true =>
      cases cm with
      | none => simp [get_response]
      | some u =>
        cases hgen : generate_response co with
        | ok r => simp [get_response, hgen]
        | error e => simp [get_response, hgen]
    | false =>
      cases rsys with
      | none => simp [get_response]
      | some rs =>
        cases ri with
        | false => simp [get_response]
        | true =>
          cases rr with
          | some e => simp [get_response]
          | none =>
            obtain ⟨hd1, hd2, hd3, hd4⟩ := qd_field_invariants rs.query_engine q ro k
            cases hqe : rs.query_engine with
            | none =>
              simp only [get_response]
              rw [hqe] at hd1 hd2 hd4 ⊢
              first
              | exact hd1
              | exact hd2
              | exact Or.inr ⟨hd4 rfl, by simp [query_documents]⟩
            | some qe =>
              simp only [get_response]
              rw [hqe] at hd1 hd2 hd3 ⊢
              first
              | exact hd1
              | exact hd2
              | exact Or.inl (hd3 (by simp))

/-- Witness for C10 (amended) at concrete calls exercising the
engine-present, engine-absent and uninitialized-session paths. -/
theorem C10_result_field_invariants_witness :
    (query_documents (some { idx := { docs := [] }, similarity_top_k := 3 }) "hi"
        (Except.ok { responseText := "ans", source_nodes := [] }) 3).query = some "hi" ∧
    (query_documents none "hi"
        (Except.ok { responseText := "ans", source_nodes := [] }) 3).query = none ∧
    (query_documents none "hi"
        (Except.ok { responseText := "ans", source_nodes := [] }) 3).sources = [] ∧
    (get_response (freshSessionState false) "hi" 3
        (InvokeOutcome.transportError "down")
        (Except.ok { responseText := "ans", source_nodes := [] }) none).sources = [] := by
  have h1 := C10_result_field_invariants
    (some { idx := { docs := [] }, similarity_top_k := 3 }) "hi"
    (Except.ok { responseText := "ans", source_nodes := [] }) 3
    (freshSessionState false) (InvokeOutcome.transportError "down")
    (Except.ok { responseText := "ans", source_nodes := [] }) none
  have h2 := C10_result_field_invariants none "hi"
    (Except.ok { responseText := "ans", source_nodes := [] }) 3
    (freshSessionState false) (InvokeOutcome.transportError "down")
    (Except.ok { responseText := "ans", source_nodes := [] }) none
  refine ⟨h1.2.2.1 (by simp), h2.2.2.2.1 rfl, h2.2.1 (by simp [query_documents]), ?_⟩
  exact h1.2.2.2.2.2.1 (by simp [get_response, freshSessionState])

end RAGBedrock
